import Mathlib

/-!
Verification of the etcd apply-path fuzzing harness
(`projects/etcd/etcdserver_fuzzer.go`).

The harness is shallowly embedded: byte buffers are `List Nat` (byte
values), the structured-input consumer is explicit state passing over a
cursor, Go `panic`/`recover`/`defer` control flow is modelled by an
explicit outcome type, and each fuzz target becomes a pure function from
the buffer (and the external apply operation's behaviour, passed as a
parameter) to a trace recording the returned status and the apply
invocations that happened.
-/

namespace EtcdFuzz

/-- A byte value (0–255) of the raw fuzz input buffer. -/
abbrev Byte := Nat

/-- Modelled from the spec: the StructuredInputGenerator byte cursor
(go-fuzz-headers `ConsumeFuzzer`, a dependency whose code is not part of
this repository): an immutable buffer plus a monotonically advancing
position (spec §3 ByteCursor). -/
structure FuzzConsumer where
  data : List Byte
  pos : Nat
deriving DecidableEq, Repr

/-- `fuzz.NewConsumer(data)`: cursor at the start of the buffer. -/
def mkConsumer (data : List Byte) : FuzzConsumer := ⟨data, 0⟩

/-- Modelled from the spec: read one byte, advancing the cursor; fails
(without advancing) when the buffer is exhausted (spec §4.1: never reads
past the buffer end). -/
def getByte (f : FuzzConsumer) : Option (Byte × FuzzConsumer) :=
  match f.data[f.pos]? with
  | none => none
  | some b => some (b, ⟨f.data, f.pos + 1⟩)

/-- Modelled from the spec: integer decode (`ConsumeFuzzer.GetInt`). The
library derives the int from a single consumed byte, so the decoded value
is always non-negative and below 256. -/
def getInt (f : FuzzConsumer) : Option (Nat × FuzzConsumer) :=
  getByte f

/-- Modelled from the spec: boolean decode (`ConsumeFuzzer.GetBool`): one
consumed byte, an even value decodes to `true`. -/
def getBool (f : FuzzConsumer) : Option (Bool × FuzzConsumer) :=
  match getByte f with
  | none => none
  | some (b, f') => some (b % 2 == 0, f')

/-- Read `n` bytes in order; fails on exhaustion. -/
def readBytes (f : FuzzConsumer) : Nat → Option (List Byte × FuzzConsumer)
  | 0 => some ([], f)
  | n + 1 =>
    match getByte f with
    | none => none
    | some (b, f') =>
      match readBytes f' n with
      | none => none
      | some (bs, f'') => some (b :: bs, f'')

/-- `raftpb.Entry`: term, index, type tag and opaque payload bytes
(spec §3 LogEntry). -/
structure LogEntry where
  term : Nat
  index : Nat
  typ : Nat
  data : List Byte
deriving DecidableEq, Repr

/-- Modelled from the spec: nested-record decode of one `raftpb.Entry`
(`ConsumeFuzzer.GenerateStruct`, external library): deterministically
consume one byte per scalar field (term, index, type), one length byte,
then that many payload bytes; fail on exhaustion (spec §4.1). -/
def generateEntry (f : FuzzConsumer) : Option (LogEntry × FuzzConsumer) :=
  match getByte f with
  | none => none
  | some (t, f1) =>
    match getByte f1 with
    | none => none
    | some (i, f2) =>
      match getByte f2 with
      | none => none
      | some (ty, f3) =>
        match getByte f3 with
        | none => none
        | some (len, f4) =>
          match readBytes f4 len with
          | none => none
          | some (payload, f5) => some (⟨t, i, ty, payload⟩, f5)

/-- `pb.InternalRaftRequest`, restricted to what `shouldPass` inspects:
whether each of the three gated optional fields is populated (non-nil),
plus a stand-in for the remaining request content. Several fields may be
populated simultaneously. -/
structure InternalRaftRequest where
  clusterVersionSet : Bool
  clusterMemberAttrSet : Bool
  downgradeInfoSet : Bool
  otherData : Nat
deriving DecidableEq, Repr

/-- Modelled from the spec: nested-record decode of one
`pb.InternalRaftRequest` (`ConsumeFuzzer.GenerateStruct`, external
library): deterministically consume one byte per gated optional field (odd
value populates it) and one byte of remaining content; fail on exhaustion. -/
def generateRR (f : FuzzConsumer) : Option (InternalRaftRequest × FuzzConsumer) :=
  match getByte f with
  | none => none
  | some (b1, f1) =>
    match getByte f1 with
    | none => none
    | some (b2, f2) =>
      match getByte f2 with
      | none => none
      | some (b3, f3) =>
        match getByte f3 with
        | none => none
        | some (b4, f4) =>
          some (⟨b1 % 2 == 1, b2 % 2 == 1, b3 % 2 == 1, b4⟩, f4)

/-- Character-list version of a leading-match test, used to model Go
`strings.Contains`. -/
def listPre : List Char → List Char → Bool
  | [], _ => true
  | _ :: _, [] => false
  | a :: as, b :: bs => a == b && listPre as bs

/-- Does `pat` occur contiguously anywhere in the list? -/
def listSub (pat : List Char) : List Char → Bool
  | [] => pat.isEmpty
  | c :: t => listPre pat (c :: t) || listSub pat t

/-- Go `strings.Contains s pat`. -/
def strContains (s pat : String) : Bool := listSub pat.toList s.toList

/-- A Go panic value as the harness distinguishes them: a plain string, a
`runtime.Error`, or a generic `error` value; each carries its message. -/
inductive PanicValue where
  | str (s : String)
  | runtimeErr (s : String)
  | genericErr (s : String)
deriving DecidableEq, Repr

/-- The message string `err` computed by the type switch in `catchPanics`:
there are cases for `string` and `runtime.Error` only, so for a generic
`error` value `err` keeps its zero value `""`. -/
def derivedMsg1 : PanicValue → String
  | .str s => s
  | .runtimeErr s => s
  | .genericErr _ => ""

/-- The message string `err` computed by the type switch in `catchPanics2`:
cases for `string`, `runtime.Error` and `error` (a `runtime.Error` value
matches its own case first). -/
def derivedMsg2 : PanicValue → String
  | .str s => s
  | .runtimeErr s => s
  | .genericErr s => s

/-- Allow-list test of `catchPanics` (entry-apply oracle, variant 1). -/
def allowMatch1 (err : String) : Bool :=
  strContains err "should never fail"

/-- Allow-list test of `catchPanics2` (request-apply oracle, variant 2):
the four patterns of its if/else chain. -/
def allowMatch2 (err : String) : Bool :=
  strContains err "is not in dotted-tri format" ||
  strContains err "strconv.ParseInt: parsing" ||
  strContains err "is not a valid semver identifier" ||
  strContains err "invalid downgrade; server version is lower than determined cluster version"

/-- `catchPanics()` applied to a recovered panic value `r ≠ nil`:
`none` means the panic is suppressed (the deferred call returns normally);
`some v` means it re-panics, with `v` the new panic value. The re-panic is
`panic(err)` where `err` is the derived message string. -/
def catchPanics (r : PanicValue) : Option PanicValue :=
  let err := derivedMsg1 r
  if allowMatch1 err then none else some (.str err)

/-- `catchPanics2()` applied to a recovered panic value `r ≠ nil`: `none`
means suppressed, `some v` means it re-panics with `v` (`panic(err)` on the
derived message string). -/
def catchPanics2 (r : PanicValue) : Option PanicValue :=
  let err := derivedMsg2 r
  if allowMatch2 err then none else some (.str err)

/-- Outcome of one invocation of an external apply operation: it either
returns normally (its results are discarded by the harness) or panics with
a value. -/
inductive ApplyOutcome where
  | normal
  | panics (v : PanicValue)
deriving DecidableEq, Repr

/-- How a fuzz-target call ends: a normal return with an integer status, or
an un-recovered (re-raised) panic propagating to the fuzzing engine. -/
inductive FuzzResult where
  | status (n : Nat)
  | panicked (v : PanicValue)
deriving DecidableEq, Repr

/-- `raftpb.ConfState`: the cluster-configuration state; `Fuzzapply` passes
the default (empty) value `&raftpb.ConfState{}`. -/
structure ConfState where
  voters : List Nat
deriving DecidableEq, Repr

/-- The default `&raftpb.ConfState{}`. -/
def defaultConfState : ConfState := ⟨[]⟩

/-- The minimal server context both targets assemble (spec §3
HarnessContext): numeric identity, single-member cluster view, storage
handle (with its open/closed state), consistent-index counter. -/
structure HarnessContext where
  id : Nat
  clusterMembers : List Nat
  backendOpen : Bool
  consistentIndex : Nat
deriving DecidableEq, Repr

/-- The fresh context `Fuzzapply` builds on every call: id 1, a cluster
holding the single member 1, a freshly opened temporary backend, and a
consistent-index tracker bound to it. -/
def mkFreshContext : HarnessContext := ⟨1, [1], true, 0⟩

/-- Result of the entry-generation loop of `Fuzzapply`:
`ok ents f` when all iterations succeeded (the loop ran to its bound),
`failed a` when generation was abandoned after `a` generation attempts
(a `GenerateStruct` error or an empty payload returns 0 at once). -/
inductive GenOutcome where
  | ok (ents : List LogEntry) (f : FuzzConsumer)
  | failed (attempts : Nat)
deriving DecidableEq, Repr

/-- The `for i := 0; i < number%20; i++` loop body of `Fuzzapply`: generate
one entry per iteration, abort on a generation error or an empty payload. -/
def genEntries (f : FuzzConsumer) : Nat → GenOutcome
  | 0 => .ok [] f
  | k + 1 =>
    match generateEntry f with
    | none => .failed 1
    | some (e, f') =>
      if e.data.isEmpty then .failed 1
      else
        match genEntries f' k with
        | .ok es f'' => .ok (e :: es) f''
        | .failed a => .failed (a + 1)

/-- Trace of one `Fuzzapply` call: the result handed to the fuzzing engine
and the list of `srv.apply` invocations (context, entries, conf state). -/
structure ApplyTrace where
  result : FuzzResult
  calls : List (HarnessContext × List LogEntry × ConfState)
deriving DecidableEq, Repr

/-- `Fuzzapply(data)`. The external `(s *EtcdServer).apply` is passed in as
`applyB`. Control flow from the source: decode an int (reject on error),
generate `number % 20` entries (reject on any generation error or empty
payload), reject if the list is empty, build a fresh server context, invoke
apply, return 1. A panic raised by apply is recovered by the deferred
`catchPanics`: if suppressed, the function returns the zero value 0 of its
unnamed int result (the `return 1` statement never executed); otherwise the
re-raised panic propagates. -/
def Fuzzapply (applyB : HarnessContext → List LogEntry → ConfState → ApplyOutcome)
    (data : List Byte) : ApplyTrace :=
  match getInt (mkConsumer data) with
  | none => ⟨.status 0, []⟩
  | some (number, f0) =>
    match genEntries f0 (number % 20) with
    | .failed _ => ⟨.status 0, []⟩
    | .ok ents _ =>
      if ents.isEmpty then ⟨.status 0, []⟩
      else
        let ctx := mkFreshContext
        match applyB ctx ents defaultConfState with
        | .normal => ⟨.status 1, [(ctx, ents, defaultConfState)]⟩
        | .panics v =>
          match catchPanics v with
          | none => ⟨.status 0, [(ctx, ents, defaultConfState)]⟩
          | some v' => ⟨.panicked v', [(ctx, ents, defaultConfState)]⟩

/-- `shouldPass(r, f)` from the source: a switch over the three gated
optional fields in order (Go evaluates the cases top to bottom and the
first populated one wins); the matching case decodes one auxiliary boolean
(`f.GetBool()`) and returns it, treating a decode error as `false`; with
none of the three populated, the default `return true` consumes nothing.
The returned pair carries the consumer state after the call (the cursor
does not advance on a failed `GetBool`). -/
def shouldPass (r : InternalRaftRequest) (f : FuzzConsumer) : Bool × FuzzConsumer :=
  if r.clusterVersionSet then
    match getBool f with
    | none => (false, f)
    | some (b, f') => (b, f')
  else if r.clusterMemberAttrSet then
    match getBool f with
    | none => (false, f)
    | some (b, f') => (b, f')
  else if r.downgradeInfoSet then
    match getBool f with
    | none => (false, f)
    | some (b, f') => (b, f')
  else (true, f)

/-- Trace of one `FuzzapplierV3backendApply` call: the result and the list
of `ab.Apply(rr, true)` invocations (request, consistency-enforcement
flag). -/
structure RRTrace where
  result : FuzzResult
  calls : List (InternalRaftRequest × Bool)
deriving DecidableEq, Repr

/-- `FuzzapplierV3backendApply(data)`. The external `ab.Apply` is passed in
as `applyB`. Control flow from the source: decode one request (reject on
error), reject unless `shouldPass`, invoke `ab.Apply(rr, true)` discarding
its result, return 1. A panic raised by Apply is recovered by the deferred
`catchPanics2`: if suppressed, the function returns the zero value 0 of its
unnamed int result (the `return 1` statement never executed); otherwise the
re-raised panic propagates. -/
def FuzzapplierV3backendApply (applyB : InternalRaftRequest → ApplyOutcome)
    (data : List Byte) : RRTrace :=
  match generateRR (mkConsumer data) with
  | none => ⟨.status 0, []⟩
  | some (rr, f1) =>
    if (shouldPass rr f1).1 then
      match applyB rr with
      | .normal => ⟨.status 1, [(rr, true)]⟩
      | .panics v =>
        match catchPanics2 v with
        | none => ⟨.status 0, [(rr, true)]⟩
        | some v' => ⟨.panicked v', [(rr, true)]⟩
    else ⟨.status 0, []⟩

/-- The resource state the package `init()` leaves behind for the shared
request-apply harness context. -/
structure InitState where
  clusterMembers : List Nat
  backendOpen : Bool
  metaBucketCreated : Bool
  applierBuilt : Bool
deriving DecidableEq, Repr

/-- The package `init()` of the harness, statement by statement. Go defer
semantics: `defer betesting.Close(t, be)` registers the close of the
freshly created backend to run when `init` itself returns — which happens
at process start, before any fuzz-target invocation. -/
def init : InitState :=
  let s1 : InitState :=
    { clusterMembers := [1], backendOpen := false,
      metaBucketCreated := false, applierBuilt := false }
  let s2 := { s1 with backendOpen := true }
  let s3 := { s2 with metaBucketCreated := true }
  let s4 := { s3 with applierBuilt := true }
  { s4 with backendOpen := false }

/-- The joint decoding pipeline both targets draw from, run on one buffer:
the integer decode, the log-entry generation that follows it, the
administrative-request generation, and the auxiliary boolean decode that
follows the request. Each component returns the decoded value together
with the cursor after it, so equal results mean equal values and equal
consumed byte counts. -/
def decodePipeline (data : List Byte) :
    Option (Nat × FuzzConsumer) × Option (LogEntry × FuzzConsumer) ×
      Option (InternalRaftRequest × FuzzConsumer) × Option (Bool × FuzzConsumer) :=
  let f := mkConsumer data
  (getInt f,
   match getInt f with
   | none => none
   | some (_, f1) => generateEntry f1,
   generateRR f,
   match generateRR f with
   | none => none
   | some (_, f1) => getBool f1)

/-- The allow-listed downgrade failure message of the request-apply
oracle. -/
def downgradeMsg : String :=
  "invalid downgrade; server version is lower than determined cluster version"

/-- An apply behaviour that panics with the allow-listed downgrade
message on every request. -/
def downgradeApplyB : InternalRaftRequest → ApplyOutcome :=
  fun _ => .panics (.str downgradeMsg)

/-! ## Helper lemmas -/

/-- A successful boolean decode advances the cursor by exactly one byte and
leaves the buffer unchanged. -/
theorem getBool_some_pos (f f' : FuzzConsumer) (b : Bool)
    (h : getBool f = some (b, f')) : f'.pos = f.pos + 1 ∧ f'.data = f.data := by
  unfold getBool getByte at h
  cases hb : f.data[f.pos]? <;> rw [hb] at h
  · simp at h
  · simp at h
    rw [← h.2]
    exact ⟨rfl, rfl⟩

/-- The entry-generation loop, when it runs to its bound, produces exactly
as many entries as the bound. -/
theorem genEntries_ok_length (k : Nat) :
    ∀ (f fz : FuzzConsumer) (ents : List LogEntry),
      genEntries f k = .ok ents fz → ents.length = k := by
  induction k with
  | zero =>
    intro f fz ents h
    simp only [genEntries] at h
    cases h
    rfl
  | succ n ih =>
    intro f fz ents h
    unfold genEntries at h
    cases hge : generateEntry f <;> rw [hge] at h
    · simp at h
    · rename_i p
      obtain ⟨e, f'⟩ := p
      cases hie : e.data.isEmpty <;> simp only [hie, if_true, if_false] at h
      · cases hg : genEntries f' n <;> rw [hg] at h
        · rename_i es f''
          cases h
          simpa using ih f' fz es hg
        · simp at h
      · simp at h

/-- With a decoded request in hand, the request-apply target performs the
apply call exactly when `shouldPass` accepts, whatever the apply outcome. -/
theorem rrCalls_eq (applyB : InternalRaftRequest → ApplyOutcome) (data : List Byte)
    (rr : InternalRaftRequest) (f1 : FuzzConsumer)
    (hgen : generateRR (mkConsumer data) = some (rr, f1)) :
    (FuzzapplierV3backendApply applyB data).calls =
      if (shouldPass rr f1).1 then [(rr, true)] else [] := by
  simp only [FuzzapplierV3backendApply]
  rw [hgen]
  cases hsp : (shouldPass rr f1).1 <;> simp only [hsp, if_true, if_false]
  · rfl
  · cases happ : applyB rr
    · rfl
    · rename_i v
      cases hc : catchPanics2 v <;> simp [hc]

/-- When one of the three gated fields is populated, `shouldPass` is the
auxiliary-boolean decode, whichever field it is. -/
theorem shouldPass_gate (r : InternalRaftRequest) (f : FuzzConsumer)
    (h : ((r.clusterVersionSet || r.clusterMemberAttrSet) || r.downgradeInfoSet) = true) :
    shouldPass r f =
      match getBool f with
      | none => (false, f)
      | some (b, f') => (b, f') := by
  rcases r with ⟨v, m, d, o⟩
  cases v <;> cases m <;> cases d <;> simp_all [shouldPass]

/-! ## Claim C2 -/

/-- C2: the claim says the shared storage backend is acquired once at
process start and never released before process exit, hence still open at
every `FuzzapplierV3backendApply` invocation. The code slips: the
`defer betesting.Close(t, be)` inside `init()` runs when `init` returns, so
the shared backend is already closed before any fuzz-target call — even
though the applier was built and the cluster view retained. -/
theorem c2_shared_backend_closed_before_any_call :
    init.applierBuilt = true ∧ init.clusterMembers = [1] ∧
    init.metaBucketCreated = true ∧ init.backendOpen = false := by
  decide

/-! ## Claim C4 -/

/-- C4 counterexample: for the generic-error panic value with message
"boom", variant 1 (`catchPanics`) derives the empty string — not the
message "boom" that variant 2 (`catchPanics2`) derives — refuting the claim
that variant 1 derives the message for a generic error value just as
variant 2 does, and refuting that the derived string is non-empty. -/
theorem c4_counterexample :
    derivedMsg1 (PanicValue.genericErr "boom") = "" ∧
    derivedMsg2 (PanicValue.genericErr "boom") = "boom" ∧
    derivedMsg1 (PanicValue.genericErr "boom") ≠
      derivedMsg2 (PanicValue.genericErr "boom") := by
  decide

/-- C4 (amended): variant 2 derives the message for plain-string,
runtime-level-error and generic-error panic values alike; variant 1 derives
it only for plain-string and runtime-level-error values, and for a generic
error value its type switch has no matching case, so the string tested
against the allow-list is the empty string. -/
theorem c4_message_derivation_per_variant (s : String) :
    derivedMsg1 (PanicValue.str s) = s ∧
    derivedMsg1 (PanicValue.runtimeErr s) = s ∧
    derivedMsg1 (PanicValue.genericErr s) = "" ∧
    derivedMsg2 (PanicValue.str s) = s ∧
    derivedMsg2 (PanicValue.runtimeErr s) = s ∧
    derivedMsg2 (PanicValue.genericErr s) = s :=
  ⟨rfl, rfl, rfl, rfl, rfl, rfl⟩

/-! ## Claim C3 -/

/-- C3 counterexample: two recovered failures whose derived messages match
no allow-list entry, on which the re-raised value is not the original
recovered value: `catchPanics` turns a generic error carrying
"x should never fail" into a plain-string panic with the empty message
(the original message is lost entirely), and `catchPanics2` turns a
runtime-level error "boom" into the plain string "boom" (message kept,
value and stack identity not). -/
theorem c3_counterexample :
    catchPanics (PanicValue.genericErr "x should never fail") =
      some (PanicValue.str "") ∧
    catchPanics (PanicValue.genericErr "x should never fail") ≠
      some (PanicValue.genericErr "x should never fail") ∧
    catchPanics2 (PanicValue.runtimeErr "boom") ≠
      some (PanicValue.runtimeErr "boom") := by
  decide

/-- C3 (amended): for every recovered failure whose derived message matches
no allow-list entry, each oracle re-raises by panicking with the derived
message string: the propagated value is that string, and it equals the
original recovered value exactly when the original was a plain string. -/
theorem c3_reraise_propagates_derived_message (r : PanicValue)
    (h1 : allowMatch1 (derivedMsg1 r) = false)
    (h2 : allowMatch2 (derivedMsg2 r) = false) :
    catchPanics r = some (.str (derivedMsg1 r)) ∧
    catchPanics2 r = some (.str (derivedMsg2 r)) ∧
    (∀ s, r = PanicValue.str s →
      catchPanics r = some r ∧ catchPanics2 r = some r) := by
  refine ⟨by simp [catchPanics, h1], by simp [catchPanics2, h2], ?_⟩
  intro s hs
  subst hs
  simp only [derivedMsg1] at h1
  simp only [derivedMsg2] at h2
  exact ⟨by simp [catchPanics, derivedMsg1, h1], by simp [catchPanics2, derivedMsg2, h2]⟩

/-- C3 witness: the amended theorem applied to the runtime-level error
"boom", whose message matches neither allow-list. -/
theorem c3_witness :
    catchPanics2 (PanicValue.runtimeErr "boom") =
      some (PanicValue.str "boom") :=
  (c3_reraise_propagates_derived_message (PanicValue.runtimeErr "boom")
    (by decide) (by decide)).2.1

/-! ## Claim C9 -/

/-- C9: the structured decoding used by both fuzz targets is deterministic:
two runs of the decoding pipeline (integer decode, log-entry generation,
administrative-request generation, auxiliary boolean decode) over identical
buffers produce identical decoded values and identical cursor positions
(hence identical consumed byte counts). The model is a pure function of
the buffer, mirroring that the consumer reads no source other than the
buffer. -/
theorem c9_decode_deterministic (d1 d2 : List Byte) (h : d1 = d2) :
    decodePipeline d1 = decodePipeline d2 := by
  rw [h]

/-- C9 witness: the determinism theorem applied to a concrete buffer. -/
theorem c9_witness : decodePipeline [1, 2, 3] = decodePipeline [1, 2, 3] :=
  c9_decode_deterministic [1, 2, 3] [1, 2, 3] rfl

/-! ## Claim C1 -/

/-- C1 counterexample: on the buffer `[0,0,0,0]` (a request with none of
the gated fields populated, so `shouldPass` accepts without consuming a
boolean), an apply invocation failing with the allow-listed downgrade
message is suppressed and not re-raised — but the call returns status 0,
the zero value of the unnamed result, not the claimed success status 1:
the recovered panic pre-empted the `return 1` statement. -/
theorem c1_counterexample :
    FuzzapplierV3backendApply downgradeApplyB [0, 0, 0, 0] =
      ⟨.status 0, [(⟨false, false, false, 0⟩, true)]⟩ ∧
    FuzzResult.status 0 ≠ FuzzResult.status 1 := by
  decide

/-- C1 (amended): when the apply invocation of the request-apply target
fails with a message matching one of the four allow-listed patterns, the
failure is suppressed and the call does not re-raise; the target then
returns status 0 (the zero value of its unnamed integer result, because
the recovered panic pre-empts the `return 1` statement), with the apply
call having happened. -/
theorem c1_suppressed_apply_returns_status_zero
    (applyB : InternalRaftRequest → ApplyOutcome) (data : List Byte)
    (rr : InternalRaftRequest) (f1 : FuzzConsumer) (v : PanicValue)
    (hgen : generateRR (mkConsumer data) = some (rr, f1))
    (hsp : (shouldPass rr f1).1 = true)
    (happ : applyB rr = .panics v)
    (hallow : allowMatch2 (derivedMsg2 v) = true) :
    FuzzapplierV3backendApply applyB data = ⟨.status 0, [(rr, true)]⟩ := by
  simp only [FuzzapplierV3backendApply]
  rw [hgen]
  simp only [hsp, if_true]
  rw [happ]
  simp [catchPanics2, hallow]

/-- C1 witness: the amended theorem at the buffer `[0,0,0,2]` (no gated
field populated) with an apply that panics with the downgrade message. -/
theorem c1_witness :
    FuzzapplierV3backendApply downgradeApplyB [0, 0, 0, 2] =
      ⟨.status 0, [(⟨false, false, false, 2⟩, true)]⟩ :=
  c1_suppressed_apply_returns_status_zero downgradeApplyB [0, 0, 0, 2]
    ⟨false, false, false, 2⟩ ⟨[0, 0, 0, 2], 4⟩ (.str downgradeMsg)
    (by decide) (by decide) rfl (by decide)

/-! ## Claim C5 -/

/-- C5: after the integer decode yields `number` (always a non-negative
byte-derived value, so the negative case cannot arise), the generation
loop's bound is `number % 20`: whenever the loop runs to completion it has
generated exactly `number % 20` entries, and whenever `number % 20 = 0` the
loop generates zero entries and the call rejects with status 0 without
invoking apply. -/
theorem c5_entry_count_mod20
    (applyB : HarnessContext → List LogEntry → ConfState → ApplyOutcome)
    (data : List Byte) (number : Nat) (f0 : FuzzConsumer)
    (hdec : getInt (mkConsumer data) = some (number, f0)) :
    (∀ ents fz, genEntries f0 (number % 20) = .ok ents fz →
      ents.length = number % 20) ∧
    (number % 20 = 0 →
      genEntries f0 (number % 20) = .ok [] f0 ∧
      Fuzzapply applyB data = ⟨.status 0, []⟩) := by
  constructor
  · intro ents fz h
    exact genEntries_ok_length (number % 20) f0 fz ents h
  · intro h0
    rw [h0]
    refine ⟨rfl, ?_⟩
    simp only [Fuzzapply, hdec, h0]
    rfl

/-- C5 witness: the theorem at the buffer `[40]`: the decoded integer is
40, `40 % 20 = 0`, so the call rejects with zero generated entries. -/
theorem c5_witness :
    genEntries ⟨[40], 1⟩ (40 % 20) = .ok [] ⟨[40], 1⟩ ∧
    Fuzzapply (fun _ _ _ => ApplyOutcome.normal) [40] = ⟨.status 0, []⟩ :=
  (c5_entry_count_mod20 (fun _ _ _ => ApplyOutcome.normal) [40] 40
    ⟨[40], 1⟩ (by decide)).2 (by decide)

/-! ## Claim C6 -/

/-- C6: a generation error or an empty-payload entry aborts the generation
loop after that very attempt — one attempt at the failing level, no further
entries, whatever the remaining bound and whatever the entry's other
fields — and the whole call then rejects with status 0 without ever
invoking the apply operation. -/
theorem c6_empty_payload_or_failure_rejects
    (applyB : HarnessContext → List LogEntry → ConfState → ApplyOutcome)
    (data : List Byte) (number : Nat) (f0 : FuzzConsumer) (a : Nat)
    (hdec : getInt (mkConsumer data) = some (number, f0))
    (hfail : genEntries f0 (number % 20) = .failed a) :
    Fuzzapply applyB data = ⟨.status 0, []⟩ ∧
    (∀ f k, generateEntry f = none → genEntries f (k + 1) = .failed 1) ∧
    (∀ f k e f', generateEntry f = some (e, f') → e.data = [] →
      genEntries f (k + 1) = .failed 1) := by
  refine ⟨?_, ?_, ?_⟩
  · simp only [Fuzzapply, hdec, hfail]
  · intro f k h
    simp only [genEntries, h]
  · intro f k e f' h he
    simp only [genEntries, h, he]
    rfl

/-- C6 witness: the theorem at the buffer `[5]`: the decoded integer is 5,
the first entry generation finds an exhausted buffer and fails, the loop
stops after that single attempt and the call rejects with status 0 and no
apply invocation. -/
theorem c6_witness :
    Fuzzapply (fun _ _ _ => ApplyOutcome.normal) [5] = ⟨.status 0, []⟩ ∧
    genEntries ⟨[1, 0, 0, 0, 0], 1⟩ 7 = .failed 1 :=
  ⟨(c6_empty_payload_or_failure_rejects (fun _ _ _ => ApplyOutcome.normal)
      [5] 5 ⟨[5], 1⟩ 1 (by decide) (by decide)).1,
   (c6_empty_payload_or_failure_rejects (fun _ _ _ => ApplyOutcome.normal)
      [5] 5 ⟨[5], 1⟩ 1 (by decide) (by decide)).2.2
      ⟨[1, 0, 0, 0, 0], 1⟩ 6 ⟨0, 0, 0, []⟩ ⟨[1, 0, 0, 0, 0], 5⟩
      (by decide) rfl⟩

/-! ## Claim C7 -/

/-- C7: once a request is decoded, if any of the three gated fields
(version-set, member-attribute-set, downgrade-info-set) is populated, the
apply operation is invoked (exactly once) precisely when the auxiliary
boolean decodes successfully to `true`; if none is populated, `shouldPass`
consumes nothing (the consumer state is returned unchanged) and the apply
operation is invoked unconditionally. -/
theorem c7_boolean_gating (applyB : InternalRaftRequest → ApplyOutcome)
    (data : List Byte) (rr : InternalRaftRequest) (f1 : FuzzConsumer)
    (hgen : generateRR (mkConsumer data) = some (rr, f1)) :
    (((rr.clusterVersionSet || rr.clusterMemberAttrSet) || rr.downgradeInfoSet) = true →
      ((FuzzapplierV3backendApply applyB data).calls.length = 1 ↔
        (getBool f1).map Prod.fst = some true)) ∧
    (((rr.clusterVersionSet || rr.clusterMemberAttrSet) || rr.downgradeInfoSet) = false →
      shouldPass rr f1 = (true, f1) ∧
      (FuzzapplierV3backendApply applyB data).calls = [(rr, true)]) := by
  have hc := rrCalls_eq applyB data rr f1 hgen
  constructor
  · intro hgate
    rw [shouldPass_gate rr f1 hgate] at hc
    cases hgb : getBool f1 <;> rw [hgb] at hc
    · simp at hc
      rw [hc]
      simp
    · rename_i p
      obtain ⟨b, f'⟩ := p
      cases b <;> simp at hc <;> rw [hc] <;> simp
  · intro hgate
    rcases rr with ⟨v, m, d, o⟩
    simp only [Bool.or_eq_false_iff] at hgate
    obtain ⟨⟨hv, hm⟩, hd⟩ := hgate
    subst hv; subst hm; subst hd
    have hsp : shouldPass ⟨false, false, false, o⟩ f1 = (true, f1) := by
      simp [shouldPass]
    refine ⟨hsp, ?_⟩
    rw [hsp] at hc
    simpa using hc

/-- C7 witness: the theorem at the buffer `[1,0,0,0,2]` — the request has
the version-set field populated, the auxiliary boolean decodes to `true`
(even byte 2), and the apply operation is invoked exactly once. -/
theorem c7_witness :
    (FuzzapplierV3backendApply (fun _ => ApplyOutcome.normal)
      [1, 0, 0, 0, 2]).calls.length = 1 :=
  ((c7_boolean_gating (fun _ => ApplyOutcome.normal) [1, 0, 0, 0, 2]
      ⟨true, false, false, 0⟩ ⟨[1, 0, 0, 0, 2], 4⟩ (by decide)).1
    (by decide)).mpr (by decide)

/-! ## Claim C8 -/

/-- C8: on a buffer whose integer decodes with `number % 20 = 1` and whose
single entry generation succeeds with a non-empty payload, and whose apply
invocation raises no failure, `Fuzzapply` invokes the apply-entries
operation exactly once — on the freshly built harness context, with the
one generated entry and the default (empty) cluster-configuration state —
discards the result and returns status 1. -/
theorem c8_single_entry_applies_once
    (applyB : HarnessContext → List LogEntry → ConfState → ApplyOutcome)
    (data : List Byte) (number : Nat) (f0 f1 : FuzzConsumer) (e : LogEntry)
    (hdec : getInt (mkConsumer data) = some (number, f0))
    (hone : number % 20 = 1)
    (hgen : generateEntry f0 = some (e, f1))
    (hne : e.data ≠ [])
    (hnorm : applyB mkFreshContext [e] defaultConfState = .normal) :
    Fuzzapply applyB data =
      ⟨.status 1, [(mkFreshContext, [e], defaultConfState)]⟩ := by
  have hie : e.data.isEmpty = false := by
    cases hd : e.data
    · exact absurd hd hne
    · rfl
  have hg1 : genEntries f0 (number % 20) = .ok [e] f1 := by
    rw [hone]
    simp only [genEntries, hgen, hie]
    rfl
  simp only [Fuzzapply, hdec, hg1, hnorm]
  rfl

/-- C8 witness: the theorem at the buffer `[1, 0,0,0, 1, 7]`: the integer
decodes to 1, the single generated entry is `⟨0,0,0,[7]⟩` with non-empty
payload, apply returns normally, and the call reports status 1 with exactly
one apply invocation. -/
theorem c8_witness :
    Fuzzapply (fun _ _ _ => ApplyOutcome.normal) [1, 0, 0, 0, 1, 7] =
      ⟨.status 1, [(mkFreshContext, [⟨0, 0, 0, [7]⟩], defaultConfState)]⟩ :=
  c8_single_entry_applies_once (fun _ _ _ => ApplyOutcome.normal)
    [1, 0, 0, 0, 1, 7] 1 ⟨[1, 0, 0, 0, 1, 7], 1⟩ ⟨[1, 0, 0, 0, 1, 7], 6⟩
    ⟨0, 0, 0, [7]⟩ (by decide) (by decide) (by decide) (by decide) rfl

/-! ## Claim C10 -/

/-- C10: `shouldPass` consumes at most one auxiliary boolean from the
buffer (the cursor advances by at most one byte, over the unchanged
buffer), and when several gated fields are populated simultaneously only
the first in the fixed order (version-set, then member-attribute-set, then
downgrade-info-set) determines acceptance: with the version-set field
populated the later two fields are irrelevant, and with the
member-attribute-set field populated (version-set not) the downgrade field
is irrelevant. -/
theorem c10_at_most_one_bool_first_variant_wins :
    (∀ (f : FuzzConsumer) (b2 b3 b2' b3' : Bool) (o o' : Nat),
      shouldPass ⟨true, b2, b3, o⟩ f = shouldPass ⟨true, b2', b3', o'⟩ f) ∧
    (∀ (f : FuzzConsumer) (b3 b3' : Bool) (o o' : Nat),
      shouldPass ⟨false, true, b3, o⟩ f = shouldPass ⟨false, true, b3', o'⟩ f) ∧
    (∀ (r : InternalRaftRequest) (f : FuzzConsumer),
      f.pos ≤ (shouldPass r f).2.pos ∧
      (shouldPass r f).2.pos ≤ f.pos + 1 ∧
      (shouldPass r f).2.data = f.data) := by
  refine ⟨?_, ?_, ?_⟩
  · intro f b2 b3 b2' b3' o o'
    simp [shouldPass]
  · intro f b3 b3' o o'
    simp [shouldPass]
  · intro r f
    have hgb : ∀ p : Bool × FuzzConsumer,
        (match getBool f with
          | none => (false, f)
          | some (b, f') => (b, f')) = p →
        f.pos ≤ p.2.pos ∧ p.2.pos ≤ f.pos + 1 ∧ p.2.data = f.data := by
      intro p hp
      cases hb : getBool f <;> rw [hb] at hp
      · rw [← hp]
        exact ⟨Nat.le_refl _, Nat.le_succ _, rfl⟩
      · rename_i q
        obtain ⟨b, f'⟩ := q
        obtain ⟨h1, h2⟩ := getBool_some_pos f f' b hb
        rw [← hp]
        exact ⟨by rw [h1]; exact Nat.le_succ _, by rw [h1], h2⟩
    rcases r with ⟨v, m, d, o⟩
    cases v <;> cases m <;> cases d <;>
      first
        | exact ⟨Nat.le_refl _, Nat.le_succ _, rfl⟩
        | exact hgb _ rfl

end EtcdFuzz
